import Mathlib

/-
Verification of the MAD per-device control loop against its specification.
Shallow embedding of:
  - mapadroid/data_handler/mitm_data/PlayerData.py
  - mapadroid/websocket/communicator.py
  - mapadroid/worker/WorkerBase.py
  - mapadroid/worker/WorkerQuests.py
Machine integers are modelled as Nat/Int, latitude/longitude floats as
rationals, fallible code as Option/Except, and stateful code as explicit
state passing.
-/

/-! ## PlayerData (telemetry store, map-objects cell tracking) -/

/-- A game-map-objects (GMO) payload as consumed by
`PlayerData.__parse_gmo_for_location`: only the optional "cells" list of
cell identifiers matters there (`gmo_payload.get("cells", None)`). -/
structure GmoPayload where
  cells : Option (List Nat) := none
deriving Repr, DecidableEq

/-- State of a `PlayerData` instance relevant to the map-objects kind:
the per-kind latest-data holder plus the cell-tracking fields
`__last_cell_ids` and `__last_possibly_moved`. -/
structure PlayerDataState where
  latestData : List (String × GmoPayload × Int) := []
  lastCellIds : List Nat := []
  lastPossiblyMoved : Int := 0
deriving Repr, DecidableEq

/-- Modelled from the spec: `LatestMitmDataHolder.update` (its module is not
part of the excerpt) overwrites the entry for a kind — last-write-wins per
kind, O(1) map update. -/
def holderUpdate (m : List (String × GmoPayload × Int)) (key : String)
    (v : GmoPayload) (ts : Int) : List (String × GmoPayload × Int) :=
  (key, v, ts) :: m.filter (fun e => e.1 ≠ key)

/-- `PlayerData.__parse_gmo_for_location`: if the payload has no cells
(`if not cells: return`) the state is unchanged; if the set of new cell ids
intersects `__last_cell_ids` (`bool(set(cells).intersection(...))`), the
stored cell list is replaced and `__last_possibly_moved` is set to the
write's timestamp; otherwise nothing changes. -/
def parse_gmo_for_location (st : PlayerDataState) (gmo_payload : GmoPayload)
    (timestamp : Int) : PlayerDataState :=
  match gmo_payload.cells with
  | none => st
  | some cells =>
    if cells.isEmpty then st
    else if cells.any (fun c => st.lastCellIds.contains c) then
      { st with lastCellIds := cells, lastPossiblyMoved := timestamp }
    else st

/-- `PlayerData.update_latest`: stores the value in the latest-data holder
and, exactly when the key is "106" (map objects), parses the GMO for the
cell-intersection movement heuristic. -/
def update_latest (st : PlayerDataState) (key : String) (value : GmoPayload)
    (timestamp_received : Int) : PlayerDataState :=
  let st1 := { st with latestData := holderUpdate st.latestData key value timestamp_received }
  if key = "106" then parse_gmo_for_location st1 value timestamp_received else st1

/-- `PlayerData.get_last_possibly_moved`. -/
def get_last_possibly_moved (st : PlayerDataState) : Int :=
  st.lastPossiblyMoved

/-! ## Communicator (command transport) -/

/-- Protocol-level events of one `Communicator` method call: acquiring and
releasing `__send_mutex`, sending a command and awaiting its reply. -/
inductive CommEvent
  | acquireMutex
  | releaseMutex
  | send
  | awaitReply
deriving Repr, DecidableEq

/-- `WebsocketConnectedClientEntry.send_and_wait` viewed as its send/await
events (the entry itself is an external collaborator of this module). -/
def send_and_wait_events : List CommEvent :=
  [CommEvent.send, CommEvent.awaitReply]

/-- `Communicator.__run_get_gesponse`: wraps `send_and_wait` in
`async with self.__send_mutex`. -/
def run_get_gesponse_events : List CommEvent :=
  [CommEvent.acquireMutex] ++ send_and_wait_events ++ [CommEvent.releaseMutex]

/-- `Communicator.__run_and_ok_bytes` (which also backs `__run_and_ok`):
wraps `send_and_wait` in `async with self.__send_mutex`. -/
def run_and_ok_bytes_events : List CommEvent :=
  [CommEvent.acquireMutex] ++ send_and_wait_events ++ [CommEvent.releaseMutex]

/-- The public command methods of `Communicator` that send a command to the
device and await its reply. -/
inductive CommMethod
  | install_apk
  | install_bundle
  | start_app
  | stop_app
  | passthrough
  | reboot
  | restart_app
  | reset_app_data
  | clear_app_cache
  | magisk_off
  | magisk_on
  | turn_screen_on
  | click
  | swipe
  | touch_and_hold
  | get_screensize
  | uiautomator
  | get_screenshot
  | back_button
  | home_button
  | enter_text
  | is_screen_on
  | is_pogo_topmost
  | topmost_app
  | set_location
  | terminate_connection
  | walk_from_to
  | get_compressed_logcat
deriving Repr, DecidableEq

/-- Event trace of each `Communicator` method, read off the source: every
method funnels through `__run_and_ok` / `__run_and_ok_bytes` /
`__run_get_gesponse` except `passthrough`, which calls
`websocket_client_entry.send_and_wait` directly without the mutex, and
`magisk_off` / `magisk_on`, which delegate to `passthrough`. -/
def commMethodEvents : CommMethod → List CommEvent
  | CommMethod.passthrough => send_and_wait_events
  | CommMethod.magisk_off => send_and_wait_events
  | CommMethod.magisk_on => send_and_wait_events
  | CommMethod.install_apk => run_and_ok_bytes_events
  | CommMethod.install_bundle => run_and_ok_bytes_events
  | CommMethod.start_app => run_and_ok_bytes_events
  | CommMethod.stop_app => run_and_ok_bytes_events
  | CommMethod.reboot => run_and_ok_bytes_events
  | CommMethod.restart_app => run_and_ok_bytes_events
  | CommMethod.reset_app_data => run_and_ok_bytes_events
  | CommMethod.clear_app_cache => run_and_ok_bytes_events
  | CommMethod.turn_screen_on => run_and_ok_bytes_events
  | CommMethod.click => run_and_ok_bytes_events
  | CommMethod.touch_and_hold => run_and_ok_bytes_events
  | CommMethod.back_button => run_and_ok_bytes_events
  | CommMethod.home_button => run_and_ok_bytes_events
  | CommMethod.enter_text => run_and_ok_bytes_events
  | CommMethod.terminate_connection => run_and_ok_bytes_events
  | CommMethod.swipe => run_get_gesponse_events
  | CommMethod.get_screensize => run_get_gesponse_events
  | CommMethod.uiautomator => run_get_gesponse_events
  | CommMethod.get_screenshot => run_get_gesponse_events
  | CommMethod.is_screen_on => run_get_gesponse_events
  | CommMethod.is_pogo_topmost => run_get_gesponse_events
  | CommMethod.topmost_app => run_get_gesponse_events
  | CommMethod.set_location => run_get_gesponse_events
  | CommMethod.walk_from_to => run_get_gesponse_events
  | CommMethod.get_compressed_logcat => run_get_gesponse_events

/-- A trace is guarded when every send/await event occurs while the send
mutex is held (lock depth positive). -/
def eventsGuarded : List CommEvent → Nat → Bool
  | [], _ => true
  | CommEvent.acquireMutex :: rest, d => eventsGuarded rest (d + 1)
  | CommEvent.releaseMutex :: rest, d => eventsGuarded rest (d - 1)
  | CommEvent.send :: rest, d => decide (0 < d) && eventsGuarded rest d
  | CommEvent.awaitReply :: rest, d => decide (0 < d) && eventsGuarded rest d

/-- Whether a `Communicator` method holds the per-session send lock for its
whole send-and-await. -/
def holdsLockForSendAndAwait (m : CommMethod) : Bool :=
  eventsGuarded (commMethodEvents m) 0

/-- Python substring test `pat in s`. -/
def containsSub (s pat : String) : Bool :=
  (List.range (s.data.length + 1)).any (fun i => pat.data.isPrefixOf (s.data.drop i))

/-- A reply from the device transport: either textual or binary. -/
inductive CommReply
  | text (s : String)
  | binary (payload : List Nat)
deriving Repr, DecidableEq

/-- Outcome of `Communicator.get_screenshot`: its boolean result, the
command sent to the device (none when no command was sent), and the
(path, payload) written to disk, if any. -/
structure ScreenshotOutcome where
  result : Bool
  command : Option String
  written : Option (String × List Nat)
deriving Repr, DecidableEq

/-- The two screenshot formats of `ScreenshotType`. -/
inductive MadScreenshotType
  | JPEG
  | PNG
deriving Repr, DecidableEq

/-- `Communicator.get_screenshot`: quality outside [10, 100] fails without
sending; a textual reply always yields False (its "KO: " / "OK:" branches
all return False); a binary reply is written to `path` and yields True.
`reply` is the transport's response (none models a None result). -/
def get_screenshot (path : String) (quality : Int)
    (screenshot_type : MadScreenshotType) (reply : Option CommReply) :
    ScreenshotOutcome :=
  if quality < 10 ∨ quality > 100 then
    { result := false, command := none, written := none }
  else
    let type_str := match screenshot_type with
      | MadScreenshotType.PNG => "png"
      | MadScreenshotType.JPEG => "jpeg"
    let cmd := "screen capture " ++ type_str ++ " " ++ toString quality
    match reply with
    | none => { result := false, command := some cmd, written := none }
    | some (CommReply.text s) =>
      if containsSub s "KO: " then
        { result := false, command := some cmd, written := none }
      else if ¬ containsSub s "OK:" then
        { result := false, command := some cmd, written := none }
      else
        { result := false, command := some cmd, written := none }
    | some (CommReply.binary b) =>
      { result := true, command := some cmd, written := some (path, b) }

/-! ## Theorems for claims C1, C2, C10 -/

/-- Claim C1: a telemetry write through `update_latest` with key "106"
whose payload has a non-empty cells list replaces the stored cell set and
sets the last-possibly-moved timestamp exactly when the new cell set
intersects the stored one; on a disjoint set, or a payload without cells,
both are left unchanged. -/
theorem C1_gmo_cell_intersection (st : PlayerDataState) (p : GmoPayload) (ts : Int) :
    (∀ cs, p.cells = some cs → cs ≠ [] →
      ((∃ c ∈ cs, c ∈ st.lastCellIds) →
        (update_latest st "106" p ts).lastCellIds = cs ∧
        get_last_possibly_moved (update_latest st "106" p ts) = ts) ∧
      ((∀ c ∈ cs, c ∉ st.lastCellIds) →
        (update_latest st "106" p ts).lastCellIds = st.lastCellIds ∧
        get_last_possibly_moved (update_latest st "106" p ts) =
          get_last_possibly_moved st)) ∧
    ((p.cells = none ∨ p.cells = some []) →
      (update_latest st "106" p ts).lastCellIds = st.lastCellIds ∧
      get_last_possibly_moved (update_latest st "106" p ts) =
        get_last_possibly_moved st) := by
  constructor
  · intro cs hcs hne
    constructor
    · intro hmem
      simp [update_latest, parse_gmo_for_location, hcs, hne,
        get_last_possibly_moved, List.isEmpty_iff, hmem]
    · intro hdisj
      have hnot : ¬ ∃ c ∈ cs, c ∈ st.lastCellIds := by
        push_neg
        exact hdisj
      simp [update_latest, parse_gmo_for_location, hcs, hne,
        get_last_possibly_moved, List.isEmpty_iff, hnot]
  · intro hcells
    rcases hcells with h | h <;>
      simp [update_latest, parse_gmo_for_location, h, get_last_possibly_moved]

/-- Witness for C1 at a concrete write: cells [2, 3] intersect stored
[1, 2], so the stored set becomes [2, 3] and the timestamp becomes 42. -/
theorem C1_gmo_cell_intersection_witness :
    (update_latest { lastCellIds := [1, 2] } "106" { cells := some [2, 3] } 42).lastCellIds = [2, 3] ∧
    get_last_possibly_moved
      (update_latest { lastCellIds := [1, 2] } "106" { cells := some [2, 3] } 42) = 42 :=
  ((C1_gmo_cell_intersection { lastCellIds := [1, 2] } { cells := some [2, 3] } 42).1
    [2, 3] rfl (by decide)).1 ⟨2, by decide, by decide⟩

/-- Counterexample for claim C2 as stated: `Communicator.passthrough` sends
a command and awaits the reply without ever acquiring the per-session send
mutex, so not every command method holds the lock for its send-and-await. -/
theorem C2_passthrough_unguarded :
    holdsLockForSendAndAwait CommMethod.passthrough = false := by
  decide

/-- Claim C2 (amended): every `Communicator` command method except
`passthrough` — and `magisk_off`/`magisk_on`, which delegate to it — holds
the per-session send lock for the whole send-and-await. -/
theorem C2_send_lock_held (m : CommMethod)
    (h1 : m ≠ CommMethod.passthrough)
    (h2 : m ≠ CommMethod.magisk_off)
    (h3 : m ≠ CommMethod.magisk_on) :
    holdsLockForSendAndAwait m = true := by
  cases m <;>
    first
      | decide
      | exact absurd rfl h1
      | exact absurd rfl h2
      | exact absurd rfl h3

/-- Witness for the amended C2 at a concrete method (`start_app`). -/
theorem C2_send_lock_held_witness :
    holdsLockForSendAndAwait CommMethod.start_app = true :=
  C2_send_lock_held CommMethod.start_app (by decide) (by decide) (by decide)

/-- Claim C10: `get_screenshot` returns false without sending a command
when quality is outside [10, 100]; any textual reply yields false (even
with an "OK:" marker in it); it returns true exactly when a binary reply
arrives with quality in range, and then the payload is written to the
given path. -/
theorem C10_get_screenshot_contract (path : String) (q : Int)
    (stype : MadScreenshotType) (reply : Option CommReply) :
    ((q < 10 ∨ q > 100) →
      (get_screenshot path q stype reply).result = false ∧
      (get_screenshot path q stype reply).command = none) ∧
    (∀ s, reply = some (CommReply.text s) →
      (get_screenshot path q stype reply).result = false) ∧
    ((get_screenshot path q stype reply).result = true ↔
      (¬(q < 10 ∨ q > 100) ∧ ∃ b, reply = some (CommReply.binary b))) ∧
    (∀ b, reply = some (CommReply.binary b) → ¬(q < 10 ∨ q > 100) →
      (get_screenshot path q stype reply).written = some (path, b)) := by
  refine ⟨?_, ?_, ?_, ?_⟩
  · intro hq
    simp [get_screenshot, hq]
  · intro s hs
    by_cases hq : q < 10 ∨ q > 100
    · simp [get_screenshot, hq]
    · by_cases hko : containsSub s "KO: " = true
      · simp [get_screenshot, hq, hs, hko]
      · by_cases hok : containsSub s "OK:" = true
        · simp [get_screenshot, hq, hs, hko, hok]
        · simp [get_screenshot, hq, hs, hko, hok]
  · by_cases hq : q < 10 ∨ q > 100
    · simp [get_screenshot, hq]
    · cases reply with
      | none => simp [get_screenshot, hq]
      | some r =>
        cases r with
        | text s =>
          by_cases hko : containsSub s "KO: " = true
          · simp [get_screenshot, hq, hko]
          · by_cases hok : containsSub s "OK:" = true
            · simp [get_screenshot, hq, hko, hok]
            · simp [get_screenshot, hq, hko, hok]
        | binary b => simp [get_screenshot, hq]
  · intro b hb hq
    simp [get_screenshot, hq, hb]

/-- Witness for C10 at concrete inputs: quality 70, binary reply [1, 2]
written to "shot.jpg". -/
theorem C10_get_screenshot_contract_witness :
    (get_screenshot "shot.jpg" 70 MadScreenshotType.JPEG
      (some (CommReply.binary [1, 2]))).written = some ("shot.jpg", [1, 2]) :=
  (C10_get_screenshot_contract "shot.jpg" 70 MadScreenshotType.JPEG
      (some (CommReply.binary [1, 2]))).2.2.2 [1, 2] rfl (by decide)

/-! ## WorkerBase.check_walker (walker termination policy) -/

/-- A `SettingsWalkerarea` as read by `check_walker`: the policy mode, its
textual value, and an optional event id. -/
structure SettingsWalkerareaM where
  algo_type : String
  algo_value : String
  eventid : Option Int := none
deriving Repr, DecidableEq

/-- External collaborators consulted by `check_walker`: the current event
id (`self._event.get_current_event_id()`), the wall-clock-dependent result
of the external `check_walker_value_type` helper, and the rounds already
processed for this worker (`routemanager_get_rounds`). -/
structure CheckWalkerEnv where
  currentEventId : Int := 0
  valueTypeCheck : Bool := false
  processedRounds : Int := 0
deriving Repr, DecidableEq

/-- Decimal digits of a Python int literal, most significant first. -/
def digitsToNat (l : List Char) : Option Nat :=
  l.foldl (fun acc c => match acc with
    | none => none
    | some n => if c.isDigit then some (n * 10 + (c.toNat - 48)) else none)
    (some 0)

/-- Python `int(...)` on the textual `algo_value` fields: a decimal string
with optional leading minus; `none` models the `ValueError` raised on
anything else. -/
def parseIntText (s : String) : Option Int :=
  match s.data with
  | [] => none
  | '-' :: rest => if rest.isEmpty then none else (digitsToNat rest).map (fun n => -(n : Int))
  | chars => (digitsToNat chars).map (fun n => (n : Int))

/-- `WorkerBase.check_walker`, with `now = math.floor(time.time())`. The
result is `(continue?, workerstart afterwards)`; `none` models the
`ValueError` that `int(...)` raises on a non-numeric value (which would
end the worker). Sleeps in the idle branch and the stop/start of the game
there are dropped; that branch always returns stop. -/
def check_walker (walker : SettingsWalkerareaM) (env : CheckWalkerEnv)
    (workerstart : Option Int) (now : Int) : Option (Bool × Option Int) :=
  if (match walker.eventid with
      | some e => decide (e ≠ env.currentEventId)
      | none => false) then some (false, workerstart)
  else if walker.algo_type = "countdown" then
    if walker.algo_value = "" then some (false, workerstart)
    else match parseIntText walker.algo_value with
      | none => none
      | some countdown =>
        match workerstart with
        | none => some (true, some now)
        | some ws =>
          if now ≥ ws + countdown then some (false, some ws)
          else some (true, some ws)
  else if walker.algo_type = "timer" then
    if walker.algo_value = "" ∨ ¬ containsSub walker.algo_value ":" then
      some (false, workerstart)
    else some (env.valueTypeCheck, workerstart)
  else if walker.algo_type = "round" then
    if walker.algo_value = "" then some (false, workerstart)
    else match parseIntText walker.algo_value with
      | none => none
      | some rounds =>
        if env.processedRounds ≥ rounds then some (false, workerstart)
        else some (true, workerstart)
  else if walker.algo_type = "period" then
    if walker.algo_value = "" then some (false, workerstart)
    else some (env.valueTypeCheck, workerstart)
  else if walker.algo_type = "coords" then
    if walker.algo_value ≠ "" then some (env.valueTypeCheck, workerstart)
    else some (true, workerstart)
  else if walker.algo_type = "idle" then
    some (false, workerstart)
  else some (false, workerstart)

/-! ## WorkerBase._ensure_pogo_topmost (screen recovery sub-machine) -/

/-- The `ScreenType` classifications used by `_ensure_pogo_topmost` (the
enum lives in `mapadroid.ocr.screen_type`; only constructor identity
matters here). -/
inductive MadScreenType
  | UNDEFINED
  | BLACK
  | CLOSE
  | DISABLED
  | GAMEDATA
  | GPS
  | UPDATE
  | ERROR
  | FAILURE
  | NOGGL
  | SN
  | NOTRESPONDING
  | POGO
  | QUEST
deriving Repr, DecidableEq

/-- Device-directed remedies issued by the screen recovery loop. -/
inductive RecoveryAction
  | startPogo
  | sleepSecs (s : Nat)
  | restartPogoSafe
  | restartPogo
  | stopPogo
  | clearAppCache
  | resetAppData
  | rebootDevice
deriving Repr, DecidableEq

/-- Mutable worker state consulted by `_ensure_pogo_topmost`:
`_last_screen_type`, `_loginerrorcounter`, `_same_screen_count`, the stop
event, the `CLEAR_GAME_DATA` device setting, and the (external) success of
a `_restart_pogo` attempted in the frozen-screen branch. -/
structure RecoveryState where
  last_screen_type : MadScreenType := MadScreenType.UNDEFINED
  loginerrorcounter : Nat := 0
  same_screen_count : Nat := 0
  stop_worker_event : Bool := false
  clear_game_data : Bool := false
  restart_pogo_success : Bool := true
deriving Repr, DecidableEq

/-- How a modelled run of the recovery loop ended: the loop returned, or it
consumed all supplied classifier outputs and would classify again. -/
inductive RecoveryOutcome
  | finished (success : Bool)
  | needMoreInput
deriving Repr, DecidableEq

/-- Result of a modelled `_ensure_pogo_topmost` run: outcome, final value
of the `screen_type` variable, final state, actions issued in order. -/
structure RecoveryResult where
  outcome : RecoveryOutcome
  screen : MadScreenType
  st : RecoveryState
  actions : List RecoveryAction
deriving Repr, DecidableEq

/-- The single exit of `_ensure_pogo_topmost` (its final lines): the loop
result is success exactly when the last classified screen is POGO or
QUEST. -/
def finishRecovery (screen : MadScreenType) (st : RecoveryState)
    (acts : List RecoveryAction) : RecoveryResult :=
  { outcome := RecoveryOutcome.finished
      (decide (screen = MadScreenType.POGO ∨ screen = MadScreenType.QUEST)),
    screen := screen, st := st, actions := acts }

/-- Per-screen handling of one loop iteration of `_ensure_pogo_topmost`
(the if/elif ladder after the frozen-screen bookkeeping): returns updated
state, actions appended, and whether the source executed `break`. POGO and
QUEST are intercepted before this ladder; their rows here are inert. -/
def handleScreen (s : MadScreenType) (st : RecoveryState)
    (acts : List RecoveryAction) : RecoveryState × List RecoveryAction × Bool :=
  match s with
  | MadScreenType.UNDEFINED => (st, acts, false)
  | MadScreenType.BLACK => (st, acts ++ [RecoveryAction.sleepSecs 20], false)
  | MadScreenType.CLOSE =>
    ({ st with loginerrorcounter := st.loginerrorcounter + 1 },
      acts ++ [RecoveryAction.startPogo], false)
  | MadScreenType.GAMEDATA =>
    let st2 := { st with loginerrorcounter := st.loginerrorcounter + 1 }
    if st2.loginerrorcounter < 2 then (st2, acts ++ [RecoveryAction.restartPogoSafe], false)
    else (st2, acts, false)
  | MadScreenType.DISABLED => (st, acts, true)
  | MadScreenType.UPDATE => (st, acts ++ [RecoveryAction.sleepSecs 300], false)
  | MadScreenType.ERROR =>
    ({ st with loginerrorcounter := st.loginerrorcounter + 1 }, acts, false)
  | MadScreenType.FAILURE =>
    ({ st with loginerrorcounter := st.loginerrorcounter + 1 }, acts, false)
  | MadScreenType.NOGGL =>
    ({ st with loginerrorcounter := st.loginerrorcounter + 1 }, acts, false)
  | MadScreenType.GPS =>
    ({ st with stop_worker_event := true }, acts ++ [RecoveryAction.rebootDevice], true)
  | MadScreenType.SN => (st, acts ++ [RecoveryAction.restartPogoSafe], true)
  | MadScreenType.NOTRESPONDING =>
    ({ st with stop_worker_event := true }, acts ++ [RecoveryAction.rebootDevice], true)
  | MadScreenType.POGO => (st, acts, true)
  | MadScreenType.QUEST => (st, acts, true)

/-- `WorkerBase._ensure_pogo_topmost`: the screen recovery loop, driven by
the list of classifier outputs (`detect_screentype` results). Consumes one
classification per iteration; mirrors the frozen-screen counter, the
per-screen remedies, and the login-error escalation, including every
`break`. A reboot sets the stop event (via `stop_worker`). -/
def ensure_pogo_topmost (screens : List MadScreenType)
    (screen_type : MadScreenType) (st : RecoveryState)
    (acts : List RecoveryAction) : RecoveryResult :=
  match screens with
  | [] =>
    if st.stop_worker_event then finishRecovery screen_type st acts
    else { outcome := RecoveryOutcome.needMoreInput, screen := screen_type,
           st := st, actions := acts }
  | s :: rest =>
    if st.stop_worker_event then finishRecovery screen_type st acts
    else if s = MadScreenType.POGO ∨ s = MadScreenType.QUEST then
      finishRecovery s { st with last_screen_type := s, loginerrorcounter := 0 } acts
    else if s ≠ MadScreenType.ERROR ∧ st.last_screen_type = s ∧
        st.same_screen_count + 1 > 3 then
      -- frozen screen: counter incremented past 3 ⇒ restart, else reboot, then break
      let same2 := st.same_screen_count + 1
      if same2 > 4 then
        finishRecovery s
          { st with same_screen_count := same2, stop_worker_event := true }
          (acts ++ [RecoveryAction.rebootDevice])
      else if st.restart_pogo_success then
        finishRecovery s { st with same_screen_count := same2 }
          (acts ++ [RecoveryAction.restartPogo])
      else
        finishRecovery s
          { st with same_screen_count := same2, stop_worker_event := true }
          (acts ++ [RecoveryAction.restartPogo, RecoveryAction.rebootDevice])
    else
      let st1 :=
        if s ≠ MadScreenType.ERROR ∧ st.last_screen_type = s then
          { st with same_screen_count := st.same_screen_count + 1 }
        else if st.last_screen_type ≠ s then
          { st with same_screen_count := 0 }
        else st
      let handled := handleScreen s st1 acts
      let st2 := handled.1
      let acts2 := handled.2.1
      let brk := handled.2.2
      if brk then finishRecovery s st2 acts2
      else if st2.loginerrorcounter > 1 then
        finishRecovery s
          { st2 with loginerrorcounter := 0, stop_worker_event := true }
          (acts2 ++ [RecoveryAction.stopPogo, RecoveryAction.clearAppCache] ++
            (if st2.clear_game_data then [RecoveryAction.resetAppData] else []) ++
            [RecoveryAction.rebootDevice])
      else
        ensure_pogo_topmost rest s { st2 with last_screen_type := s } acts2

/-! ## Theorems for claims C5, C6, C7 -/

/-- Claim C6: for the countdown walker policy with duration d, the first
evaluation records the floored wall-clock time as the start and continues;
every later evaluation stops exactly when the floored wall-clock time has
reached start + d. -/
theorem C6_countdown_policy (walker : SettingsWalkerareaM) (env : CheckWalkerEnv)
    (now d : Int)
    (hmode : walker.algo_type = "countdown")
    (hev : walker.eventid = none ∨ walker.eventid = some env.currentEventId)
    (hne : walker.algo_value ≠ "")
    (hparse : parseIntText walker.algo_value = some d) :
    check_walker walker env none now = some (true, some now) ∧
    (∀ s : Int, ∃ cont : Bool,
      check_walker walker env (some s) now = some (cont, some s) ∧
      (cont = false ↔ now ≥ s + d)) := by
  constructor
  · rcases hev with h | h <;> simp [check_walker, h, hmode, hne, hparse]
  · intro s
    by_cases hc : now ≥ s + d
    · refine ⟨false, ?_, by simp [hc]⟩
      rcases hev with h | h <;> simp [check_walker, h, hmode, hne, hparse, hc]
    · refine ⟨true, ?_, by simp [hc]⟩
      rcases hev with h | h <;> simp [check_walker, h, hmode, hne, hparse, hc]

/-- Witness for C6 at a countdown of 60: the first evaluation at time 1000
records 1000 and continues. -/
theorem C6_countdown_policy_witness :
    check_walker { algo_type := "countdown", algo_value := "60" } {} none 1000 =
      some (true, some 1000) :=
  (C6_countdown_policy { algo_type := "countdown", algo_value := "60" } {}
    1000 60 rfl (Or.inl rfl) (by decide) (by decide)).1

/-- Claim C5: on classifier outputs [close, close, close] from a fresh
state, each consumed close-dialog taps the app into the foreground (start
pogo) and increments the login-error counter, and the full-restart
escalation (stop app, clear cache, reset counter, reboot) fires exactly
once, immediately after the second consecutive close-dialog — after the
first close no restart has happened and the loop is still running. -/
theorem C5_close_dialog_escalation :
    (ensure_pogo_topmost [MadScreenType.CLOSE] MadScreenType.UNDEFINED {} []).outcome
        = RecoveryOutcome.needMoreInput ∧
    (ensure_pogo_topmost [MadScreenType.CLOSE] MadScreenType.UNDEFINED {} []).actions
        = [RecoveryAction.startPogo] ∧
    (ensure_pogo_topmost [MadScreenType.CLOSE] MadScreenType.UNDEFINED {} []).st.loginerrorcounter
        = 1 ∧
    ensure_pogo_topmost [MadScreenType.CLOSE, MadScreenType.CLOSE, MadScreenType.CLOSE]
        MadScreenType.UNDEFINED {} [] =
      { outcome := RecoveryOutcome.finished false,
        screen := MadScreenType.CLOSE,
        st := { last_screen_type := MadScreenType.CLOSE, loginerrorcounter := 0,
                same_screen_count := 1, stop_worker_event := true },
        actions := [RecoveryAction.startPogo, RecoveryAction.startPogo,
                    RecoveryAction.stopPogo, RecoveryAction.clearAppCache,
                    RecoveryAction.rebootDevice] } := by
  decide

set_option maxHeartbeats 1600000 in
/-- Every run of the recovery loop either returns through its single exit
`finishRecovery` or runs out of supplied classifier outputs. -/
theorem ensure_pogo_topmost_shape (screens : List MadScreenType)
    (screen : MadScreenType) (st : RecoveryState) (acts : List RecoveryAction) :
    (∃ scr fs facts, ensure_pogo_topmost screens screen st acts = finishRecovery scr fs facts) ∨
    (ensure_pogo_topmost screens screen st acts).outcome = RecoveryOutcome.needMoreInput := by
  induction screens generalizing screen st acts with
  | nil =>
    simp only [ensure_pogo_topmost]
    split
    · exact Or.inl ⟨_, _, _, rfl⟩
    · exact Or.inr rfl
  | cons s rest ih =>
    simp only [ensure_pogo_topmost]
    repeat' split
    all_goals
      first
        | exact Or.inl ⟨_, _, _, rfl⟩
        | exact Or.inr rfl
        | apply ih

/-- Claim C7: `_ensure_pogo_topmost` returns success exactly when the
terminal classification is POGO (foreground-ok) or QUEST (quest-log-ok);
every other terminating path — disabled, frozen screen, GPS or
not-responding reboot, login-error escalation, stop signal — returns
failure. -/
theorem C7_recovery_exit_contract (screens : List MadScreenType)
    (screen : MadScreenType) (st : RecoveryState) (acts : List RecoveryAction)
    (b : Bool)
    (h : (ensure_pogo_topmost screens screen st acts).outcome = RecoveryOutcome.finished b) :
    b = true ↔
      ((ensure_pogo_topmost screens screen st acts).screen = MadScreenType.POGO ∨
       (ensure_pogo_topmost screens screen st acts).screen = MadScreenType.QUEST) := by
  rcases ensure_pogo_topmost_shape screens screen st acts with ⟨scr, fs, facts, heq⟩ | hout
  · rw [heq] at h ⊢
    simp only [finishRecovery] at h ⊢
    rw [RecoveryOutcome.finished.injEq] at h
    subst h
    simp
  · rw [hout] at h
    simp at h

/-- Witness for C7: the disabled screen ends the loop with failure, and the
iff instantiates there. -/
theorem C7_recovery_exit_contract_witness :
    false = true ↔
      ((ensure_pogo_topmost [MadScreenType.DISABLED] MadScreenType.UNDEFINED {} []).screen
          = MadScreenType.POGO ∨
       (ensure_pogo_topmost [MadScreenType.DISABLED] MadScreenType.UNDEFINED {} []).screen
          = MadScreenType.QUEST) :=
  C7_recovery_exit_contract [MadScreenType.DISABLED] MadScreenType.UNDEFINED {} [] false
    (by decide)

/-! ## WorkerQuests (point-of-interest interaction protocol) -/

/-- A latitude/longitude pair (floats modelled as rationals). -/
structure MadLocation where
  lat : ℚ
  lng : ℚ
deriving Repr, DecidableEq

/-- A fort inside a GMO cell, with the dict defaults used by
`WorkerQuests` (`fort.get(...)`): a missing coordinate reads as 0, a
missing id as the empty string (both falsy in Python). -/
structure GmoFort where
  latitude : ℚ := 0
  longitude : ℚ := 0
  fort_type : Int := 0
  visited : Bool := false
  enabled : Bool := true
  closed : Bool := false
  cooldown_complete_ms : Int := 0
  fort_id : String := ""
deriving Repr, DecidableEq

/-- A GMO cell: its s2 cell id and fort list (`cell.get("forts")`). -/
structure GmoCell where
  cell_id : Nat
  forts : List GmoFort := []
deriving Repr, DecidableEq

/-- `DISTANCE_TO_STOP_TO_CONSIDER_ON_TOP = 0.00006`. -/
def distance_to_stop_to_consider_on_top : ℚ := 6 / 100000

/-- `WorkerQuests._directly_surrounding_gmo_cells_containing_stops_around_current_position`:
keeps the GMO cells whose id is among the s2 cell ids valid around the
current location (that list comes from the external `S2Helper` over a 35m
radius and is the `valid_cell_ids` parameter) and which contain forts. -/
def directly_surrounding_cells (valid_cell_ids : List Nat)
    (gmo_cells : List GmoCell) : List GmoCell :=
  gmo_cells.filter (fun c => valid_cell_ids.contains c.cell_id && !c.forts.isEmpty)

/-- The `PositionStopType` enum of `WorkerQuests`. -/
inductive PositionStopType
  | GMO_NOT_AVAILABLE
  | GMO_EMPTY
  | GYM
  | VISITED_STOP_IN_LEVEL_MODE_TO_IGNORE
  | STOP_DISABLED
  | STOP_CLOSED
  | STOP_COOLDOWN
  | NO_FORT
  | SPINNABLE_STOP
deriving Repr, DecidableEq

/-- `PositionStopType.type_contains_stop_at_all`. -/
def type_contains_stop_at_all (t : PositionStopType) : Bool :=
  match t with
  | PositionStopType.SPINNABLE_STOP => true
  | PositionStopType.VISITED_STOP_IN_LEVEL_MODE_TO_IGNORE => true
  | PositionStopType.STOP_CLOSED => true
  | PositionStopType.STOP_COOLDOWN => true
  | PositionStopType.STOP_DISABLED => true
  | _ => false

/-- The per-fort body of the classification loop of
`WorkerQuests._current_position_has_spinnable_stop`: `none` when the loop
skips the fort (zero coordinate, or not within the on-top epsilon of the
current location); otherwise the classification it returns, in source
order: gym, visited-in-level-mode, disabled, closed, cooldown, spinnable. -/
def classify_fort (loc : MadLocation) (level_mode ignore_spinned_stops : Bool)
    (fort : GmoFort) : Option PositionStopType :=
  if fort.latitude = 0 ∨ fort.longitude = 0 then none
  else if |loc.lat - fort.latitude| ≤ distance_to_stop_to_consider_on_top ∧
      |loc.lng - fort.longitude| ≤ distance_to_stop_to_consider_on_top then
    some (
      if fort.fort_type = 0 then PositionStopType.GYM
      else if level_mode && ignore_spinned_stops && fort.visited then
        PositionStopType.VISITED_STOP_IN_LEVEL_MODE_TO_IGNORE
      else if !fort.enabled then PositionStopType.STOP_DISABLED
      else if fort.closed then PositionStopType.STOP_CLOSED
      else if fort.cooldown_complete_ms ≠ 0 then PositionStopType.STOP_COOLDOWN
      else PositionStopType.SPINNABLE_STOP)
  else none

/-- `WorkerQuests._spinnable_data_failure`: above 9 consecutive failures
the counter resets and the game is restarted, otherwise it increments.
Returns (new counter, restart triggered). -/
def spinnable_data_failure (failcount : Nat) : Nat × Bool :=
  if failcount > 9 then (0, true) else (failcount + 1, false)

/-- The GMO payload handed back by `_wait_for_data` for the spinnable
check (`data_received["payload"]`); `cells` mirrors
`latest_proto.get("cells", None)`. -/
structure GmoWaitData where
  cells : Option (List GmoCell) := none
deriving Repr, DecidableEq

/-- Result of the spinnable check: the classification, the value of
`_spinnable_data_failcount` afterwards, and whether a game restart was
triggered by the failure counter. -/
structure SpinnableCheckResult where
  stop_type : PositionStopType
  failcount : Nat
  restarted : Bool
deriving Repr, DecidableEq

/-- `WorkerQuests._current_position_has_spinnable_stop` restricted to its
non-raising paths: classifies the current position from the latest GMO.
`waitData` is the `_wait_for_data` result (`none` models no GMO/no data),
`failcount` the failure counter on entry. The failure counter resets on
the gym, visited-in-level-mode and spinnable branches, is untouched on the
disabled/closed/cooldown branches, and goes through
`_spinnable_data_failure` on the failure paths. The no-fort branch of the
source first awaits `_check_if_stop_was_nearby_and_update_location`
(line 581), which can raise; that call is omitted here and included in
`current_position_has_spinnable_stop_full` below — this restricted version
is the special case in which no stored stop can be left over (see
`current_position_has_spinnable_stop_full_nil`). -/
def current_position_has_spinnable_stop (valid_cell_ids : List Nat)
    (loc : MadLocation) (level_mode ignore_spinned_stops : Bool)
    (waitData : Option GmoWaitData) (failcount : Nat) : SpinnableCheckResult :=
  match waitData with
  | none =>
    let fr := spinnable_data_failure failcount
    ⟨PositionStopType.GMO_NOT_AVAILABLE, fr.1, fr.2⟩
  | some data =>
    match data.cells with
    | none =>
      let fr := spinnable_data_failure failcount
      ⟨PositionStopType.GMO_EMPTY, fr.1, fr.2⟩
    | some gmo_cells =>
      if gmo_cells.isEmpty then
        let fr := spinnable_data_failure failcount
        ⟨PositionStopType.GMO_EMPTY, fr.1, fr.2⟩
      else
        let cells_with_stops := directly_surrounding_cells valid_cell_ids gmo_cells
        match (cells_with_stops.map (fun c => c.forts)).flatten.findSome?
            (classify_fort loc level_mode ignore_spinned_stops) with
        | some t =>
          match t with
          | PositionStopType.GYM => ⟨t, 0, false⟩
          | PositionStopType.VISITED_STOP_IN_LEVEL_MODE_TO_IGNORE => ⟨t, 0, false⟩
          | PositionStopType.SPINNABLE_STOP => ⟨t, 0, false⟩
          | _ => ⟨t, failcount, false⟩
        | none =>
          let fr := spinnable_data_failure failcount
          ⟨PositionStopType.NO_FORT, fr.1, fr.2⟩

/-- The `ProtoIdentifier` keys used by the quest worker (numeric values as
in `mapadroid.utils.ProtoIdentifier`; only key identity matters here). -/
inductive MadProto
  | GMO
  | ENCOUNTER
  | FORT_DETAILS
  | FORT_SEARCH
  | INVENTORY
  | GYM_INFO
deriving Repr, DecidableEq

/-- Numeric proto id of each `ProtoIdentifier` member. -/
def MadProto.value : MadProto → Nat
  | MadProto.GMO => 106
  | MadProto.ENCOUNTER => 102
  | MadProto.FORT_DETAILS => 104
  | MadProto.FORT_SEARCH => 101
  | MadProto.INVENTORY => 4
  | MadProto.GYM_INFO => 156

/-- The `LatestReceivedType` enum of `MITMBase` as used by the quest
worker. -/
inductive LatestReceivedType
  | UNDEFINED
  | GYM
  | STOP
  | MON
  | CLEAR
  | GMO
  | FORT_SEARCH_RESULT
deriving Repr, DecidableEq

/-- The `FortSearchResultTypes` enum of `WorkerBase`. -/
inductive FortSearchResultTypes
  | UNDEFINED
  | QUEST
  | TIME
  | COOLDOWN
  | INVENTORY
  | LIMIT
  | UNAVAILABLE
  | OUT_OF_RANGE
  | FULL
deriving Repr, DecidableEq

/-- A proto payload as probed by `_check_for_data_content` through dict
gets: `result` and the length of `items_awarded` for fort-search, the
nested quest type, `type` for fort details, `cells` for the GMO, and the
inventory delta. -/
structure MadProtoPayload where
  result : Int := 0
  items_awarded_len : Nat := 0
  quest_type : Int := 0
  fort_type : Int := 0
  cells : Option (List GmoCell) := none
  has_inventory_delta : Bool := false
  inventory_items_len : Nat := 0
deriving Repr, DecidableEq

/-- The "values" dict of a latest-telemetry entry, holding the payload. -/
structure LatestValues where
  payload : Option MadProtoPayload := none
deriving Repr, DecidableEq

/-- One entry of the latest-telemetry dict (`timestamp` and `values`). -/
structure MadLatestEntry where
  timestamp : Int := 0
  values : Option LatestValues := none
deriving Repr, DecidableEq

/-- Lookup in the latest-telemetry dict, keyed by numeric proto id. -/
def lookupLatest (latest : List (Nat × MadLatestEntry)) (k : Nat) :
    Option MadLatestEntry :=
  (latest.find? (fun e => e.1 == k)).map (fun e => e.2)

/-- The data returned alongside the classification by
`_check_for_data_content`: the payload (fort details, inventory), the
values dict (GMO), or a fort-search result. -/
inductive MadFoundData
  | payloadData (p : MadProtoPayload)
  | valuesData (v : LatestValues)
  | fortSearch (r : FortSearchResultTypes)
deriving Repr, DecidableEq

/-- The gym-info override at the top of `_check_for_data_content`: a
gym-details entry at least as new as the caller's timestamp was clicked. -/
def gym_info_overrides (latest : List (Nat × MadLatestEntry)) (timestamp : Int) : Bool :=
  match lookupLatest latest MadProto.GYM_INFO.value with
  | some e => decide (e.timestamp ≥ timestamp)
  | none => false

/-- The encounter override of `_check_for_data_content`: a creature
encounter at least as new as the caller's timestamp was clicked. -/
def encounter_overrides (latest : List (Nat × MadLatestEntry)) (timestamp : Int) : Bool :=
  match lookupLatest latest MadProto.ENCOUNTER.value with
  | some e => decide (e.timestamp ≥ timestamp)
  | none => false

/-- The fort-search result ladder of `_check_for_data_content`. -/
def fort_search_classify (p : MadProtoPayload) :
    LatestReceivedType × Option MadFoundData :=
  if p.result = 1 ∧ p.items_awarded_len = 0 then
    (LatestReceivedType.FORT_SEARCH_RESULT,
      some (MadFoundData.fortSearch FortSearchResultTypes.TIME))
  else if p.result = 1 ∧ p.quest_type = 0 then
    (LatestReceivedType.FORT_SEARCH_RESULT,
      some (MadFoundData.fortSearch FortSearchResultTypes.FULL))
  else if p.result = 1 ∧ p.items_awarded_len > 0 then
    (LatestReceivedType.FORT_SEARCH_RESULT,
      some (MadFoundData.fortSearch FortSearchResultTypes.QUEST))
  else if p.result = 2 then
    (LatestReceivedType.FORT_SEARCH_RESULT,
      some (MadFoundData.fortSearch FortSearchResultTypes.OUT_OF_RANGE))
  else if p.result = 3 then
    (LatestReceivedType.FORT_SEARCH_RESULT,
      some (MadFoundData.fortSearch FortSearchResultTypes.COOLDOWN))
  else if p.result = 4 then
    (LatestReceivedType.FORT_SEARCH_RESULT,
      some (MadFoundData.fortSearch FortSearchResultTypes.INVENTORY))
  else if p.result = 5 then
    (LatestReceivedType.FORT_SEARCH_RESULT,
      some (MadFoundData.fortSearch FortSearchResultTypes.LIMIT))
  else (LatestReceivedType.UNDEFINED, none)

/-- `WorkerQuests._check_for_data_content`: classifies the latest
telemetry against the caller's `timestamp`. For fort-search and
fort-details waits, the threshold is replaced by the maximum of the
latest-quest time, the last-cleanup time and the last-questclear time
before the entry's timestamp is compared. -/
def check_for_data_content (valid_cell_ids : List Nat)
    (latest : List (Nat × MadLatestEntry)) (proto : MadProto)
    (timestamp latest_quest last_cleanup_time last_questclear_time : Int) :
    LatestReceivedType × Option MadFoundData :=
  if gym_info_overrides latest timestamp then (LatestReceivedType.GYM, none)
  else if encounter_overrides latest timestamp then (LatestReceivedType.MON, none)
  else
    match lookupLatest latest proto.value with
    | none => (LatestReceivedType.UNDEFINED, none)
    | some entry =>
      let ts := if proto = MadProto.FORT_SEARCH ∨ proto = MadProto.FORT_DETAILS then
          max latest_quest (max last_cleanup_time last_questclear_time)
        else timestamp
      if entry.timestamp < ts then (LatestReceivedType.UNDEFINED, none)
      else
        match entry.values with
        | none => (LatestReceivedType.UNDEFINED, none)
        | some vals =>
          match vals.payload with
          | none => (LatestReceivedType.UNDEFINED, none)
          | some p =>
            if proto = MadProto.FORT_SEARCH then fort_search_classify p
            else if proto = MadProto.FORT_DETAILS then
              (if p.fort_type = 0 then LatestReceivedType.GYM
                else LatestReceivedType.STOP,
                some (MadFoundData.payloadData p))
            else if proto = MadProto.GMO then
              if !(directly_surrounding_cells valid_cell_ids (p.cells.getD [])).isEmpty then
                (LatestReceivedType.GMO, some (MadFoundData.valuesData vals))
              else (LatestReceivedType.UNDEFINED, none)
            else if proto = MadProto.INVENTORY ∧ p.has_inventory_delta ∧
                p.inventory_items_len > 0 then
              (LatestReceivedType.CLEAR, some (MadFoundData.payloadData p))
            else (LatestReceivedType.UNDEFINED, none)

/-- Timeout (15 time-units) passed to `_wait_for_data` for fort details in
the open-stop loop of `_try_to_open_pokestop`. -/
def fort_details_wait_timeout : Nat := 15

/-- The open-stop while-loop of `WorkerQuests._try_to_open_pokestop`
(`while type_received != STOP and to < 3`): each iteration taps the stop
and waits for fort details with the 15-unit timeout. `outcomes` supplies
the successive `_wait_for_data` results; the result is the final
`type_received` and the list of wait timeouts used, one per iteration.
`fuel` bounds the recursion; it is 4 at the entry point, which the `to`
guard never exhausts. -/
def try_to_open_pokestop_loop (outcomes : Nat → LatestReceivedType) :
    Nat → Nat → LatestReceivedType → LatestReceivedType × List Nat
  | 0, _, current => (current, [])
  | fuel + 1, attempt, current =>
    if current = LatestReceivedType.STOP ∨ ¬ attempt < 3 then (current, [])
    else
      let next := outcomes attempt
      let r := try_to_open_pokestop_loop outcomes fuel (attempt + 1) next
      (r.1, fort_details_wait_timeout :: r.2)

/-- Entry point of the open-stop loop: the attempt counter starts at 0. -/
def try_to_open_pokestop_waits (outcomes : Nat → LatestReceivedType)
    (initial : LatestReceivedType) : LatestReceivedType × List Nat :=
  try_to_open_pokestop_loop outcomes 4 0 initial

/-- A stored `Pokestop` row as read by
`_check_if_stop_was_nearby_and_update_location` from the storage
collaborator (`PokestopHelper.get_nearby`). -/
structure PokestopRow where
  latitude : ℚ
  longitude : ℚ
  last_updated : Option Int := none
deriving Repr, DecidableEq

/-- Storage actions issued by the reconciliation; only location updates
are reachable, since the deletion loop raises before its first delete. -/
inductive ReconcileAction
  | updateLocation (fort_id : String) (loc : MadLocation)
deriving Repr, DecidableEq

/-- Body of the first loop of
`_check_if_stop_was_nearby_and_update_location` for one GMO fort: skip
forts with falsy id or coordinates, skip forts unknown to the nearby dict,
pop matched stops, and update stops whose stored position differs from
the observed one. -/
def process_gmo_fort (acc : List ReconcileAction × List (String × PokestopRow))
    (fort : GmoFort) : List ReconcileAction × List (String × PokestopRow) :=
  if fort.latitude = 0 ∨ fort.longitude = 0 ∨ fort.fort_id = "" then acc
  else
    match acc.2.find? (fun e => e.1 == fort.fort_id) with
    | none => acc
    | some entry =>
      let remaining := acc.2.filter (fun e => e.1 != fort.fort_id)
      if entry.2.latitude = fort.latitude ∧ entry.2.longitude = fort.longitude then
        (acc.1, remaining)
      else
        (acc.1 ++ [ReconcileAction.updateLocation fort.fort_id
            ⟨fort.latitude, fort.longitude⟩],
          remaining)

/-- `WorkerQuests._check_if_stop_was_nearby_and_update_location`: updates
moved stops, then iterates the leftover stops with
`for fort_id, stop in stops.values()` — tuple-unpacking each `Pokestop`
row, which is not iterable, so the first leftover stop raises `TypeError`
before any deletion can happen (the body reads like `stops.items()` was
intended). -/
def check_if_stop_was_nearby_and_update_location
    (stops : List (String × PokestopRow)) (gmo_cells : List GmoCell) :
    Except String (List ReconcileAction) :=
  let forts := (gmo_cells.map (fun c => c.forts)).flatten
  let r := forts.foldl process_gmo_fort ([], stops)
  if r.2.isEmpty then Except.ok r.1
  else Except.error "TypeError: cannot unpack non-iterable Pokestop object"

/-- `WorkerQuests._current_position_has_spinnable_stop` in full: as the
restricted version above, but the no-fort branch first runs the awaited
`_check_if_stop_was_nearby_and_update_location(session, gmo_cells)` of
line 581 — whose `TypeError` propagates and aborts the check before the
`_spinnable_data_failure` increment of line 582. `nearby_stops` is what
`PokestopHelper.get_nearby` returns for the current location. -/
def current_position_has_spinnable_stop_full (valid_cell_ids : List Nat)
    (loc : MadLocation) (level_mode ignore_spinned_stops : Bool)
    (waitData : Option GmoWaitData) (nearby_stops : List (String × PokestopRow))
    (failcount : Nat) : Except String SpinnableCheckResult :=
  match waitData with
  | none =>
    let fr := spinnable_data_failure failcount
    Except.ok ⟨PositionStopType.GMO_NOT_AVAILABLE, fr.1, fr.2⟩
  | some data =>
    match data.cells with
    | none =>
      let fr := spinnable_data_failure failcount
      Except.ok ⟨PositionStopType.GMO_EMPTY, fr.1, fr.2⟩
    | some gmo_cells =>
      if gmo_cells.isEmpty then
        let fr := spinnable_data_failure failcount
        Except.ok ⟨PositionStopType.GMO_EMPTY, fr.1, fr.2⟩
      else
        let cells_with_stops := directly_surrounding_cells valid_cell_ids gmo_cells
        match (cells_with_stops.map (fun c => c.forts)).flatten.findSome?
            (classify_fort loc level_mode ignore_spinned_stops) with
        | some t =>
          match t with
          | PositionStopType.GYM => Except.ok ⟨t, 0, false⟩
          | PositionStopType.VISITED_STOP_IN_LEVEL_MODE_TO_IGNORE => Except.ok ⟨t, 0, false⟩
          | PositionStopType.SPINNABLE_STOP => Except.ok ⟨t, 0, false⟩
          | _ => Except.ok ⟨t, failcount, false⟩
        | none =>
          match check_if_stop_was_nearby_and_update_location nearby_stops gmo_cells with
          | Except.error e => Except.error e
          | Except.ok _ =>
            let fr := spinnable_data_failure failcount
            Except.ok ⟨PositionStopType.NO_FORT, fr.1, fr.2⟩

/-- With no stored stops, one reconciliation step changes nothing. -/
theorem process_gmo_fort_nil (fort : GmoFort) :
    process_gmo_fort ([], []) fort = ([], []) := by
  unfold process_gmo_fort
  split <;> rfl

/-- With no stored stops, the reconciliation's first loop changes
nothing. -/
theorem foldl_process_gmo_fort_nil (forts : List GmoFort) :
    forts.foldl process_gmo_fort ([], []) = ([], []) := by
  induction forts with
  | nil => rfl
  | cons f rest ih => rw [List.foldl_cons, process_gmo_fort_nil]; exact ih

/-- When no stored stop can be left over (empty nearby dict), the full
check never raises and agrees with the restricted version. -/
theorem current_position_has_spinnable_stop_full_nil (valid_cell_ids : List Nat)
    (loc : MadLocation) (lm ig : Bool) (wd : Option GmoWaitData) (fc : Nat) :
    current_position_has_spinnable_stop_full valid_cell_ids loc lm ig wd [] fc =
      Except.ok (current_position_has_spinnable_stop valid_cell_ids loc lm ig wd fc) := by
  unfold current_position_has_spinnable_stop_full current_position_has_spinnable_stop
    check_if_stop_was_nearby_and_update_location
  cases wd with
  | none => rfl
  | some data =>
    cases hcells : data.cells with
    | none => simp [hcells]
    | some gmo_cells =>
      by_cases hemp : gmo_cells.isEmpty
      · simp [hcells, hemp]
      · cases hfind : ((directly_surrounding_cells valid_cell_ids gmo_cells).map
            (fun c => c.forts)).flatten.findSome? (classify_fort loc lm ig) with
        | none => simp [hcells, hemp, hfind, foldl_process_gmo_fort_nil]
        | some t => cases t <;> simp [hcells, hemp, hfind]

/-! ## Theorems for claims C3, C4, C8, C9 -/

/-- Fixture for the C4 counterexample: a disabled stop with cooldown 5000
on top of position (10, 20), in cell 3. -/
def c4_cooldown_disabled_gmo : GmoWaitData :=
  { cells := some [{ cell_id := 3,
                     forts := [{ latitude := 10, longitude := 20, fort_type := 1,
                                 enabled := false, cooldown_complete_ms := 5000 }] }] }

/-- Counterexample for claim C4 as stated: a candidate on top of the
current position with cooldown 5000 but disabled classifies as disabled,
not as on-cooldown. -/
theorem C4_disabled_beats_cooldown :
    (current_position_has_spinnable_stop [3] ⟨10, 20⟩ false false
      (some c4_cooldown_disabled_gmo) 0).stop_type
      = PositionStopType.STOP_DISABLED ∧
    (current_position_has_spinnable_stop [3] ⟨10, 20⟩ false false
      (some c4_cooldown_disabled_gmo) 0).stop_type
      ≠ PositionStopType.STOP_COOLDOWN := by
  norm_num [current_position_has_spinnable_stop, c4_cooldown_disabled_gmo,
    directly_surrounding_cells, classify_fort, distance_to_stop_to_consider_on_top,
    List.findSome?]
  decide

/-- Claim C4 (amended): a candidate with non-zero cooldown is never
classified spinnable; it is classified on-cooldown provided it is of stop
kind, not skipped as visited in level mode, enabled and not closed —
whatever the distance outcome, the candidate itself never yields
spinnable. -/
theorem C4_cooldown_never_spinnable (loc : MadLocation) (lm ig : Bool)
    (fort : GmoFort) (hcool : fort.cooldown_complete_ms ≠ 0) :
    classify_fort loc lm ig fort ≠ some PositionStopType.SPINNABLE_STOP ∧
    (fort.fort_type ≠ 0 → (lm && ig && fort.visited) = false →
      fort.enabled = true → fort.closed = false →
      (classify_fort loc lm ig fort = none ∨
       classify_fort loc lm ig fort = some PositionStopType.STOP_COOLDOWN)) := by
  constructor
  · by_cases h0 : fort.latitude = 0 ∨ fort.longitude = 0
    · simp [classify_fort, h0]
    · by_cases heps : |loc.lat - fort.latitude| ≤ distance_to_stop_to_consider_on_top ∧
          |loc.lng - fort.longitude| ≤ distance_to_stop_to_consider_on_top
      · simp only [classify_fort, if_neg h0, if_pos heps, ne_eq, Option.some_inj]
        split_ifs <;> simp_all
      · simp [classify_fort, h0, heps]
  · intro h1 h2 h3 h4
    by_cases h0 : fort.latitude = 0 ∨ fort.longitude = 0
    · exact Or.inl (by simp [classify_fort, h0])
    · by_cases heps : |loc.lat - fort.latitude| ≤ distance_to_stop_to_consider_on_top ∧
          |loc.lng - fort.longitude| ≤ distance_to_stop_to_consider_on_top
      · exact Or.inr (by simp [classify_fort, h0, heps, h1, h2, h3, h4, hcool])
      · exact Or.inl (by simp [classify_fort, h0, heps])

/-- Witness for the amended C4: an enabled, open stop on top of the
current position with cooldown 5000 classifies as on-cooldown and not as
spinnable. -/
theorem C4_cooldown_never_spinnable_witness :
    classify_fort ⟨10, 20⟩ false false
      { latitude := 10, longitude := 20, fort_type := 1,
        cooldown_complete_ms := 5000 } ≠ some PositionStopType.SPINNABLE_STOP ∧
    (classify_fort ⟨10, 20⟩ false false
      { latitude := 10, longitude := 20, fort_type := 1,
        cooldown_complete_ms := 5000 } = none ∨
     classify_fort ⟨10, 20⟩ false false
      { latitude := 10, longitude := 20, fort_type := 1,
        cooldown_complete_ms := 5000 } = some PositionStopType.STOP_COOLDOWN) :=
  ⟨(C4_cooldown_never_spinnable ⟨10, 20⟩ false false
      { latitude := 10, longitude := 20, fort_type := 1,
        cooldown_complete_ms := 5000 } (by decide)).1,
   (C4_cooldown_never_spinnable ⟨10, 20⟩ false false
      { latitude := 10, longitude := 20, fort_type := 1,
        cooldown_complete_ms := 5000 } (by decide)).2
      (by decide) (by decide) (by decide) (by decide)⟩

/-- Fixture for the C8 counterexample: a closed stop on top of position
(10, 20), in cell 7. -/
def c8_closed_stop_gmo : GmoWaitData :=
  { cells := some [{ cell_id := 7,
                     forts := [{ latitude := 10, longitude := 20, fort_type := 1,
                                 closed := true }] }] }

/-- Counterexample for claim C8 as stated: a successful classification as
a closed stop returns with the failure counter still at 5 instead of
resetting it. -/
theorem C8_closed_stop_keeps_counter :
    current_position_has_spinnable_stop_full [7] ⟨10, 20⟩ false false
      (some c8_closed_stop_gmo) [] 5 =
      Except.ok { stop_type := PositionStopType.STOP_CLOSED, failcount := 5,
                  restarted := false } ∧ (5 : Nat) ≠ 0 := by
  norm_num [current_position_has_spinnable_stop_full, c8_closed_stop_gmo,
    directly_surrounding_cells, classify_fort, distance_to_stop_to_consider_on_top,
    List.findSome?]

/-- The per-fort classification only produces the six stop-level results,
never the telemetry-failure results. -/
theorem classify_fort_range (loc : MadLocation) (lm ig : Bool) (fort : GmoFort)
    (t : PositionStopType) (h : classify_fort loc lm ig fort = some t) :
    t ≠ PositionStopType.GMO_NOT_AVAILABLE ∧ t ≠ PositionStopType.GMO_EMPTY ∧
    t ≠ PositionStopType.NO_FORT := by
  unfold classify_fort at h
  split at h
  · simp at h
  · split at h
    · rw [Option.some_inj] at h
      subst h
      split_ifs <;> simp
    · simp at h

/-- Claim C8 (amended): on every run of the spinnable check that returns,
a failed check (telemetry absent, empty, or no fort on the position) runs
the failure counter — incrementing below 10 and, at 10, restarting the
game and resetting to 0; classifications as gym, visited-in-level-mode or
spinnable reset the counter without a restart; classifications as
disabled, closed or on-cooldown leave the counter unchanged. A run fails
to return exactly when the no-fort drift reconciliation of line 581
raises, and then the check aborts before the counter is touched. -/
theorem C8_spinnable_failure_counter (valid_cell_ids : List Nat)
    (loc : MadLocation) (lm ig : Bool) (wd : Option GmoWaitData)
    (nearby_stops : List (String × PokestopRow)) (fc : Nat)
    (res : Except String SpinnableCheckResult)
    (hres : current_position_has_spinnable_stop_full valid_cell_ids loc lm ig wd
      nearby_stops fc = res) :
    (∀ r, res = Except.ok r →
      ((r.stop_type = PositionStopType.GMO_NOT_AVAILABLE ∨
        r.stop_type = PositionStopType.GMO_EMPTY ∨
        r.stop_type = PositionStopType.NO_FORT) →
        r.failcount = (if fc > 9 then 0 else fc + 1) ∧ r.restarted = decide (fc > 9)) ∧
      ((r.stop_type = PositionStopType.GYM ∨
        r.stop_type = PositionStopType.VISITED_STOP_IN_LEVEL_MODE_TO_IGNORE ∨
        r.stop_type = PositionStopType.SPINNABLE_STOP) →
        r.failcount = 0 ∧ r.restarted = false) ∧
      ((r.stop_type = PositionStopType.STOP_DISABLED ∨
        r.stop_type = PositionStopType.STOP_CLOSED ∨
        r.stop_type = PositionStopType.STOP_COOLDOWN) →
        r.failcount = fc ∧ r.restarted = false)) ∧
    (∀ e, res = Except.error e →
      ∃ data gmo_cells, wd = some data ∧ data.cells = some gmo_cells ∧
        check_if_stop_was_nearby_and_update_location nearby_stops gmo_cells =
          Except.error e) := by
  subst hres
  unfold current_position_has_spinnable_stop_full spinnable_data_failure
  cases wd with
  | none => by_cases h : fc > 9 <;> simp [h]
  | some data =>
    cases hcells : data.cells with
    | none => by_cases h : fc > 9 <;> simp [hcells, h]
    | some gmo_cells =>
      by_cases hemp : gmo_cells = []
      · by_cases h : fc > 9 <;> simp [hcells, hemp, h]
      · cases hfind : ((directly_surrounding_cells valid_cell_ids gmo_cells).map
            (fun c => c.forts)).flatten.findSome? (classify_fort loc lm ig) with
        | none =>
          cases hrec : check_if_stop_was_nearby_and_update_location nearby_stops
              gmo_cells with
          | ok acts => by_cases h : fc > 9 <;> simp [hcells, hemp, hfind, hrec, h]
          | error err =>
            constructor
            · intro r hr
              simp [hcells, hemp, hfind, hrec] at hr
            · intro e he
              simp [hcells, hemp, hfind, hrec] at he
              subst he
              exact ⟨data, gmo_cells, rfl, hcells, hrec⟩
        | some t =>
          obtain ⟨fort, -, hcf⟩ := List.exists_of_findSome?_eq_some hfind
          have hrange := classify_fort_range loc lm ig fort t hcf
          cases t <;> simp_all [hcells, hemp, hfind]

/-- Witness for the amended C8: with no GMO data and counter 0, the check
returns, reports the telemetry failure, increments the counter to 1 and
triggers no restart. -/
theorem C8_spinnable_failure_counter_witness :
    ({ stop_type := PositionStopType.GMO_NOT_AVAILABLE, failcount := 1,
       restarted := false } : SpinnableCheckResult).failcount =
      (if 0 > 9 then 0 else 0 + 1) ∧
    ({ stop_type := PositionStopType.GMO_NOT_AVAILABLE, failcount := 1,
       restarted := false } : SpinnableCheckResult).restarted = decide (0 > 9) :=
  ((C8_spinnable_failure_counter [] ⟨0, 0⟩ false false none [] 0
      (Except.ok { stop_type := PositionStopType.GMO_NOT_AVAILABLE, failcount := 1,
                   restarted := false }) (by rfl)).1
    { stop_type := PositionStopType.GMO_NOT_AVAILABLE, failcount := 1,
      restarted := false } rfl).1 (by decide)

/-- Claim C9: the reconciliation evaluated at a nearby stored stop that is
absent from the telemetry, last updated long ago and within range: instead
of deleting it, the deletion loop raises `TypeError` (it tuple-unpacks
`stops.values()`), so the stored stop is never deleted. -/
theorem C9_reconcile_deletion_raises :
    check_if_stop_was_nearby_and_update_location
      [("stop1", { latitude := 1, longitude := 2, last_updated := some 0 })]
      [{ cell_id := 9, forts := [{ latitude := 5, longitude := 6, fort_type := 1,
                                   fort_id := "other" }] }] =
      Except.error "TypeError: cannot unpack non-iterable Pokestop object" := by
  rfl

/-- Fixture for the C3 counterexample: a fort-details entry with timestamp
600, older than the action timestamp 1000 used by the caller. -/
def c3_stale_latest : List (Nat × MadLatestEntry) :=
  [(MadProto.FORT_DETAILS.value,
    { timestamp := 600, values := some { payload := some { fort_type := 1 } } })]

/-- Counterexample for claim C3 as stated: with action timestamp 1000 and
latest-quest time 500, a fort-details entry stamped 600 (older than the
action) is accepted as the stop response, because the threshold actually
used is the 500/0/0 maximum, not the action timestamp. -/
theorem C3_stale_details_accepted :
    (check_for_data_content [] c3_stale_latest MadProto.FORT_DETAILS
      1000 500 0 0).1 = LatestReceivedType.STOP ∧ (600 : Int) < 1000 := by
  decide

/-- The open-stop loop performs at most `3 - attempt` further waits, each
with the fort-details timeout. -/
theorem try_to_open_pokestop_loop_waits (outcomes : Nat → LatestReceivedType) :
    ∀ (fuel attempt : Nat) (current : LatestReceivedType),
      (try_to_open_pokestop_loop outcomes fuel attempt current).2.length ≤ 3 - attempt ∧
      ∀ t ∈ (try_to_open_pokestop_loop outcomes fuel attempt current).2,
        t = fort_details_wait_timeout := by
  intro fuel
  induction fuel with
  | zero =>
    intro attempt current
    simp [try_to_open_pokestop_loop]
  | succ n ih =>
    intro attempt current
    rw [try_to_open_pokestop_loop]
    split
    · simp
    · rename_i h
      have ha : attempt < 3 := by
        push_neg at h
        exact h.2
      constructor
      · have := (ih (attempt + 1) (outcomes attempt)).1
        simp only [List.length_cons]
        omega
      · intro t ht
        simp only [List.mem_cons] at ht
        rcases ht with h1 | h2
        · exact h1
        · exact (ih (attempt + 1) (outcomes attempt)).2 t h2

/-- Claim C3 (amended): the open-stop loop runs at most 3 attempts, each
waiting with the 15-unit fort-details timeout; a fort-details entry is
accepted (classified STOP or GYM) if and only if it exists with a payload
and its timestamp is at least the maximum of the latest-quest time, the
last-cleanup time and the last-questclear time — the recorded action
timestamp is replaced by that maximum and does not itself gate
acceptance (absent newer gym/encounter telemetry). -/
theorem C3_fort_details_threshold :
    (∀ (valid_cell_ids : List Nat) (latest : List (Nat × MadLatestEntry))
        (timestamp latest_quest last_cleanup_time last_questclear_time : Int),
      gym_info_overrides latest timestamp = false →
      encounter_overrides latest timestamp = false →
      (((check_for_data_content valid_cell_ids latest MadProto.FORT_DETAILS
          timestamp latest_quest last_cleanup_time last_questclear_time).1 =
            LatestReceivedType.STOP ∨
        (check_for_data_content valid_cell_ids latest MadProto.FORT_DETAILS
          timestamp latest_quest last_cleanup_time last_questclear_time).1 =
            LatestReceivedType.GYM) ↔
        (∃ e vals p, lookupLatest latest MadProto.FORT_DETAILS.value = some e ∧
          e.values = some vals ∧ vals.payload = some p ∧
          e.timestamp ≥ max latest_quest (max last_cleanup_time last_questclear_time)))) ∧
    (∀ (outcomes : Nat → LatestReceivedType) (initial : LatestReceivedType),
      (try_to_open_pokestop_waits outcomes initial).2.length ≤ 3 ∧
      ∀ t ∈ (try_to_open_pokestop_waits outcomes initial).2,
        t = fort_details_wait_timeout) := by
  constructor
  · intro valid_cell_ids latest timestamp lq lc lqc hg he
    cases hE : lookupLatest latest MadProto.FORT_DETAILS.value with
    | none =>
      simp [check_for_data_content, hg, he, hE]
    | some entry =>
      by_cases hts : entry.timestamp < max lq (max lc lqc)
      · have hnot : ¬ entry.timestamp ≥ max lq (max lc lqc) := not_le.mpr hts
        simp only [check_for_data_content, hg, he, hE]
        simp [hts, hnot]
        intro vals hv p hp h1 h2
        rw [lt_sup_iff, lt_sup_iff] at hts
        rcases hts with h | h | h <;> omega
      · cases hv : entry.values with
        | none => simp [check_for_data_content, hg, he, hE, hts, hv]
        | some vals =>
          cases hp : vals.payload with
          | none => simp [check_for_data_content, hg, he, hE, hts, hv, hp]
          | some p =>
            have hge : entry.timestamp ≥ max lq (max lc lqc) := not_lt.mp hts
            have hcomp : lq ≤ entry.timestamp ∧ lc ≤ entry.timestamp ∧
                lqc ≤ entry.timestamp := by
              rw [ge_iff_le, sup_le_iff, sup_le_iff] at hge
              exact ⟨hge.1, hge.2.1, hge.2.2⟩
            by_cases hft : p.fort_type = 0 <;>
              simp [check_for_data_content, hg, he, hE, hts, hv, hp, hft,
                hcomp.1, hcomp.2.1, hcomp.2.2]
  · intro outcomes initial
    refine ⟨le_trans (try_to_open_pokestop_loop_waits outcomes 4 0 initial).1 (by omega),
      (try_to_open_pokestop_loop_waits outcomes 4 0 initial).2⟩

/-- Witness for the amended C3: a fort-details entry stamped 2000, above
the 500/0/0 threshold, is accepted. -/
theorem C3_fort_details_threshold_witness :
    ((check_for_data_content []
        [(MadProto.FORT_DETAILS.value,
          { timestamp := 2000, values := some { payload := some { fort_type := 1 } } })]
        MadProto.FORT_DETAILS 1000 500 0 0).1 = LatestReceivedType.STOP ∨
     (check_for_data_content []
        [(MadProto.FORT_DETAILS.value,
          { timestamp := 2000, values := some { payload := some { fort_type := 1 } } })]
        MadProto.FORT_DETAILS 1000 500 0 0).1 = LatestReceivedType.GYM) :=
  (C3_fort_details_threshold.1 []
    [(MadProto.FORT_DETAILS.value,
      { timestamp := 2000, values := some { payload := some { fort_type := 1 } } })]
    1000 500 0 0 (by decide) (by decide)).mpr
    ⟨{ timestamp := 2000, values := some { payload := some { fort_type := 1 } } },
      { payload := some { fort_type := 1 } }, { fort_type := 1 },
      by decide, rfl, rfl, by decide⟩
